import Mathlib

/-!
Shallow embedding of the Go Redis-stream worker (repository
soham901/go-redis-stream-worker), final worker version
(`src/unnamed/part_001`, package main): the `Worker` type and its methods
`run`, `processMessage`, `updateStatus`, `acknowledgeMessage`, plus
`createConsumerGroup`, `loadConfig` and the worker-spawning part of `main`.

External effects (Redis calls, HTTP, logging, sleeping) are modelled as an
explicit trace of events; the behaviour of the outside world (broker
replies, HTTP responses) is an oracle parameter, so each source function
becomes a pure Lean function from its inputs and the oracle to the event
trace (and its Go return value).
-/

namespace StreamWorker

/-- Model of a Go `interface\x7b\x7d` value stored in a Redis stream entry's
`Values` map: either a string or some non-string value. -/
inductive GoVal where
  | str (s : String)
  | other
deriving DecidableEq

/-- Lookup in the `Values` map (`map[string]interface\x7b\x7d`), modelled as an
association list; a missing key yields `none` (Go: the nil interface). -/
def lookupVal : List (String × GoVal) → String → Option GoVal
  | [], _ => none
  | (k, v) :: rest, key => if k = key then some v else lookupVal rest key

/-- Go comma-ok string type assertion `v, ok := m[k].(string)`: succeeds with
the string iff the value is present and is a string; otherwise yields the
zero value `""` and `false`. -/
def goStringAssert : Option GoVal → String × Bool
  | some (.str s) => (s, true)
  | _ => ("", false)

/-- Embedding of `redis.XMessage`: `id` is the broker-issued stream entry ID
(`message.ID`, the delivery token), `values` the field mapping
(`message.Values`). -/
structure XMessage where
  id : String
  values : List (String × GoVal)
deriving DecidableEq

/-- Embedding of the `Config` struct built by `loadConfig`.  `ProcessingTime`
is a `time.Duration`; it is kept in milliseconds (after the
`time.Duration(pt) * time.Millisecond` conversion). -/
structure Config where
  redisHost : String
  redisPort : String
  apiURL : String
  workerCount : Int
  streamName : String
  groupName : String
  processingTimeMs : Int
deriving DecidableEq

/-- Embedding of the `StatusUpdate` struct: `Result any` only ever holds
`nil` or a `fmt.Sprintf` string in this program, so it is `Option String`
(`none` serialises to JSON `null`). -/
structure StatusUpdate where
  id : String
  status : String
  result : Option String
deriving DecidableEq

/-- Embedding of the `Worker` struct (the runtime handles `redisClient` and
`logger` carry no program state and are dropped). -/
structure Worker where
  id : Nat
  consumer : String
  group : String
  stream : String
  config : Config
deriving DecidableEq

/-- Which Go `context.Context` an outbound call is issued under:
the cancellable pool context from `main`, a fresh `context.Background()`,
or the `context.WithTimeout(context.Background(), 5*time.Second)` used for
HTTP requests (also independent of the pool context). -/
inductive CtxKind where
  | pool
  | background
  | timeout
deriving DecidableEq

/-- One observable effect of the worker. -/
inductive Event where
  | logLine (s : String)
  | httpPost (ctx : CtxKind) (url : String) (upd : StatusUpdate)
  | sleepMs (ms : Int)
  | xack (ctx : CtxKind) (stream group messageID : String)
  | xreadgroup (ctx : CtxKind) (group consumer stream : String)
      (count blockMs : Int)
deriving DecidableEq

/-- Oracle for one `updateStatus` call: which of its fallible steps fails
(`json.Marshal`, `http.NewRequestWithContext`, `client.Do`), or the HTTP
status code the server answers with. -/
inductive HttpOutcome where
  | marshalError
  | requestError
  | transportError
  | response (code : Nat)
deriving DecidableEq

/-- Embedding of `(w *Worker) updateStatus(id, status string, result
interface\x7b\x7d) error`: returns the events performed and the Go error
(`none` = `nil`).  The `httpPost` event stands for `client.Do(req)` being
invoked, so it is absent when marshalling or request construction fails. -/
def updateStatus (cfg : Config) (o : HttpOutcome) (id status : String)
    (result : Option String) : List Event × Option String :=
  match o with
  | .marshalError => ([], some "error marshaling status update")
  | .requestError => ([], some "error creating request")
  | .transportError =>
      ([.httpPost .timeout (cfg.apiURL ++ "/update-status") ⟨id, status, result⟩],
       some "error updating status")
  | .response code =>
      ([.httpPost .timeout (cfg.apiURL ++ "/update-status") ⟨id, status, result⟩],
       if code = 200 then none
       else some ("failed to update status, status code: " ++ Nat.repr code))

/-- Embedding of `(w *Worker) acknowledgeMessage(messageID string)`: issues
`XAck` under `context.Background()` and logs the outcome; `ackErr` is the
broker's reply to the `XAck` call. -/
def acknowledgeMessage (w : Worker) (ackErr : Option String)
    (messageID : String) : List Event :=
  Event.xack .background w.stream w.group messageID ::
    (match ackErr with
     | some e => [Event.logLine ("Error acknowledging message: " ++ e)]
     | none => [Event.logLine ("Acknowledged message: " ++ messageID)])

/-- Oracle for processing one message: outcomes of the two `updateStatus`
calls and of the final `XAck`. -/
structure MsgOracle where
  procReport : HttpOutcome
  compReport : HttpOutcome
  ackErr : Option String
deriving DecidableEq

/-- The part of the well-formed branch of `processMessage` that precedes
the acknowledgment: log, report `processing` (logging a failure), sleep
for the simulated processing time, report `completed` with the computed
result (logging a failure). -/
def processWellFormedPre (w : Worker) (o : MsgOracle)
    (messageID messageBody : String) : List Event :=
  Event.logLine ("Processing message: " ++ messageBody) ::
  (let r1 := updateStatus w.config o.procReport messageID "processing" none
   r1.1 ++ (match r1.2 with
            | some e => [Event.logLine ("Failed to update status to processing: " ++ e)]
            | none => []))
  ++ [Event.sleepMs w.config.processingTimeMs]
  ++ (let result := "Processed result for message " ++ messageBody ++
        " by worker " ++ Nat.repr w.id
      let r2 := updateStatus w.config o.compReport messageID "completed" (some result)
      r2.1 ++ (match r2.2 with
               | some e => [Event.logLine ("Failed to update status to completed: " ++ e)]
               | none => []))

/-- The well-formed branch of `processMessage` (everything after the `id`
type assertion succeeded): the pre-acknowledgment part, then the
acknowledgment of the delivery token. -/
def processWellFormed (w : Worker) (o : MsgOracle)
    (messageID messageBody deliveryID : String) : List Event :=
  processWellFormedPre w o messageID messageBody ++
    acknowledgeMessage w o.ackErr deliveryID

/-- Embedding of `(w *Worker) processMessage(message redis.XMessage)`:
a record whose `Values["id"]` is not a string is logged and acknowledged
immediately; otherwise `Values["body"]` is read with a discarded-ok
assertion (zero value `""` on failure) and the message is processed. -/
def processMessage (w : Worker) (o : MsgOracle) (msg : XMessage) : List Event :=
  let idA := goStringAssert (lookupVal msg.values "id")
  if idA.2 then
    let bodyA := goStringAssert (lookupVal msg.values "body")
    processWellFormed w o idA.1 bodyA.1 msg.id
  else
    Event.logLine "Invalid message ID format" ::
      acknowledgeMessage w o.ackErr msg.id

/-- Arguments of the `XReadGroup` call in `run` (`redis.XReadGroupArgs`). -/
structure XReadGroupArgs where
  group : String
  consumer : String
  streamKeys : List String
  count : Int
  blockMs : Int
deriving DecidableEq

/-- The block timeout of the claim call in `run`: `Block: 5 * time.Second`.
In go-redis a strictly positive `Block` is a bounded wait (`BLOCK 5000`);
`Block: 0` would block indefinitely. -/
def blockTimeoutMs : Int := 5000

/-- The shutdown grace period in `main`: `time.After(10 * time.Second)`. -/
def shutdownGraceMs : Int := 10000

/-- The `XReadGroupArgs` value `run` constructs for its claim call:
`Count: 1`, `Block: 5 * time.Second`, streams `[stream, ">"]`. -/
def claimArgs (w : Worker) : XReadGroupArgs :=
  { group := w.group
    consumer := w.consumer
    streamKeys := [w.stream, ">"]
    count := 1
    blockMs := blockTimeoutMs }

/-- The event of issuing the claim call; `XReadGroup` receives the pool's
cancellable context `ctx`. -/
def readEvent (w : Worker) : Event :=
  .xreadgroup .pool (claimArgs w).group (claimArgs w).consumer w.stream
    (claimArgs w).count (claimArgs w).blockMs

/-- Oracle for one `XReadGroup` call: cancelled during the blocking read
(`err == context.Canceled`), timed out empty (`redis.Nil`), failed
otherwise, or delivered streams of messages (each message paired with the
environment's behaviour for its processing). -/
inductive ClaimOutcome where
  | canceled
  | redisNil
  | readError (e : String)
  | ok (streams : List (List (XMessage × MsgOracle)))
deriving DecidableEq

/-- Environment input for one iteration of the `run` loop.
`canceledAtTop` is what the `select` on `ctx.Done()` observes at the top of
the iteration; `canceledAfterClaim` records whether the pool context is
cancelled after a successful claim — the source has no check between the
claim and the end of the iteration, so a faithful embedding must ignore
this field. -/
structure IterInput where
  canceledAtTop : Bool
  canceledAfterClaim : Bool
  claim : ClaimOutcome
deriving DecidableEq

/-- One iteration of the `for` loop in `(w *Worker) run(ctx)`: returns the
events of the iteration and whether the loop returned (exited). -/
def runStep (w : Worker) (inp : IterInput) : List Event × Bool :=
  if inp.canceledAtTop then
    ([Event.logLine ("Worker " ++ Nat.repr w.id ++ " shutting down")], true)
  else
    match inp.claim with
    | .canceled => ([readEvent w], true)
    | .redisNil => ([readEvent w, .sleepMs 1000], false)
    | .readError e =>
        ([readEvent w, .logLine ("Error reading group: " ++ e), .sleepMs 1000],
         false)
    | .ok streams =>
        (readEvent w ::
          (streams.map (fun msgs =>
            (msgs.map (fun p => processMessage w p.2 p.1)).flatten)).flatten,
         false)

/-- The `run` loop over a finite schedule of environment inputs (an empty
schedule means the worker is still running). -/
def runLoop (w : Worker) : List IterInput → List Event
  | [] => []
  | inp :: rest =>
      let r := runStep w inp
      if r.2 then r.1 else r.1 ++ runLoop w rest

/-- Embedding of `(w *Worker) run(ctx)`: the start log, then the loop. -/
def run (w : Worker) (inps : List IterInput) : List Event :=
  Event.logLine ("Starting worker " ++ Nat.repr w.id) :: runLoop w inps

/-- The broker's reply text when the consumer group already exists. -/
def busygroupMsg : String := "BUSYGROUP Consumer Group name already exists"

/-- Embedding of `createConsumerGroup(redisClient, config) error`:
`brokerErr` is the result of the `XGroupCreate` call (`none` = success);
the BUSYGROUP reply is swallowed, every other error is returned. -/
def createConsumerGroup (brokerErr : Option String) : Option String :=
  match brokerErr with
  | some e => if e = busygroupMsg then none else some e
  | none => none

/-- The worker-spawning loop of `main`: `for i := 0; i < config.WorkerCount;
i++` builds a `Worker` with `consumer = fmt.Sprintf("consumer-%d", i)` and
the shared group and stream names.  A non-positive `WorkerCount` makes the
loop body run zero times, hence `Int.toNat`. -/
def spawnWorkers (cfg : Config) : List Worker :=
  (List.range cfg.workerCount.toNat).map (fun i =>
    { id := i
      consumer := "consumer-" ++ Nat.repr i
      group := cfg.groupName
      stream := cfg.streamName
      config := cfg })

/-- Outcome of process startup: `log.Fatalf` (process exits, no workers
run), or the pool is running with its list of spawned workers. -/
inductive StartupResult where
  | fatal (msg : String)
  | running (workers : List Worker)
deriving DecidableEq

/-- The startup sequence of `main` after `loadConfig` succeeded: ping the
broker, create the consumer group, then spawn the workers.  `pingErr` and
`groupErr` are the broker's replies to `Ping` and `XGroupCreate`. -/
def mainStartup (cfg : Config) (pingErr groupErr : Option String) :
    StartupResult :=
  match pingErr with
  | some e => .fatal ("Failed to connect to Redis: " ++ e)
  | none =>
      match createConsumerGroup groupErr with
      | some e => .fatal ("Failed to create consumer group: " ++ e)
      | none => .running (spawnWorkers cfg)

/-- Go `os.Getenv`: the empty string when the variable is unset.  The
environment is an association list of set variables. -/
def getenv (env : List (String × String)) (k : String) : String :=
  match env.lookup k with
  | some v => v
  | none => ""

/-- Value of a decimal digit character, `none` otherwise. -/
def digitVal (c : Char) : Option Nat :=
  if '0' ≤ c ∧ c ≤ '9' then some (c.toNat - '0'.toNat) else none

/-- Digits-only part of `strconv.Atoi`: `none` on the empty string or any
non-digit character. -/
def parseDigits (cs : List Char) : Option Nat :=
  if cs.isEmpty then none
  else
    cs.foldl (fun acc c =>
      match acc, digitVal c with
      | some n, some d => some (n * 10 + d)
      | _, _ => none) (some 0)

/-- Embedding of `strconv.Atoi`: optional sign then decimal digits
(the int64 overflow error is not modelled; no claim depends on it). -/
def atoi (s : String) : Option Int :=
  match s.toList with
  | '-' :: rest => (parseDigits rest).map (fun n => -(n : Int))
  | '+' :: rest => (parseDigits rest).map (fun n => (n : Int))
  | cs => (parseDigits cs).map (fun n => (n : Int))

/-- Embedding of `loadConfig() (*Config, error)` over the process
environment.  `WORKER_COUNT` and `PROCESSING_TIME` fail on a non-integer
value; every other variable falls back to its default when empty. -/
def loadConfig (env : List (String × String)) : Except String Config :=
  let wcStr := getenv env "WORKER_COUNT"
  match (if wcStr = "" then some (5 : Int) else atoi wcStr) with
  | none => .error "invalid WORKER_COUNT"
  | some workerCount =>
    let ptStr := getenv env "PROCESSING_TIME"
    match (if ptStr = "" then some (2000 : Int) else atoi ptStr) with
    | none => .error "invalid PROCESSING_TIME"
    | some processingTimeMs =>
      let streamName := if getenv env "STREAM_NAME" = "" then "mystream" else getenv env "STREAM_NAME"
      let groupName := if getenv env "GROUP_NAME" = "" then "mygroup" else getenv env "GROUP_NAME"
      let redisHost := if getenv env "REDIS_HOST" = "" then "localhost" else getenv env "REDIS_HOST"
      let redisPort := if getenv env "REDIS_PORT" = "" then "6379" else getenv env "REDIS_PORT"
      let apiURL := if getenv env "API_URL" = "" then "http://localhost:3000" else getenv env "API_URL"
      .ok
        { redisHost := redisHost
          redisPort := redisPort
          apiURL := apiURL
          workerCount := workerCount
          streamName := streamName
          groupName := groupName
          processingTimeMs := processingTimeMs }

/-- The broker address `main` dials: `fmt.Sprintf("%s:%s", RedisHost,
RedisPort)`. -/
def redisAddr (cfg : Config) : String := cfg.redisHost ++ ":" ++ cfg.redisPort

/-- Recognises a status-report event (`client.Do` on `/update-status`). -/
def isReport : Event → Bool
  | .httpPost _ _ _ => true
  | _ => false

/-- Recognises the simulated-execution event (`time.Sleep`). -/
def isSleep : Event → Bool
  | .sleepMs _ => true
  | _ => false

/-! Concrete values used to evaluate the theorems on sample inputs. -/

/-- The default configuration (all environment variables unset). -/
def demoConfig : Config :=
  { redisHost := "localhost", redisPort := "6379",
    apiURL := "http://localhost:3000", workerCount := 5,
    streamName := "mystream", groupName := "mygroup",
    processingTimeMs := 2000 }

/-- Worker 0 of the demo pool. -/
def demoWorker : Worker :=
  { id := 0, consumer := "consumer-0", group := "mygroup",
    stream := "mystream", config := demoConfig }

/-- A well-formed claimed record: id 42, body hello. -/
def demoMsg : XMessage :=
  { id := "1741013205952-0",
    values := [("id", GoVal.str "42"), ("body", GoVal.str "hello")] }

/-- A malformed claimed record: no `id` field at all. -/
def demoBadMsg : XMessage :=
  { id := "1741013205952-1", values := [("body", GoVal.str "hello")] }

/-- A record with a string `id` but no `body` field. -/
def demoNoBodyMsg : XMessage :=
  { id := "1741013205952-2", values := [("id", GoVal.str "42")] }

/-- An all-success environment: both reports answered 200, ack accepted. -/
def demoOracle : MsgOracle :=
  { procReport := .response 200, compReport := .response 200, ackErr := none }

/-- A failing environment: the processing report dies in transit and the
completed report is answered 500; the ack still succeeds. -/
def demoFailOracle : MsgOracle :=
  { procReport := .transportError, compReport := .response 500, ackErr := none }

/-! Decimal representation: `Nat.repr` (the embedding of `fmt.Sprintf`'s
`%d`) is injective.  `decDigs` is a fuel-free restatement of
`Nat.toDigitsCore`, and `digitsVal` reads the number back. -/

/-- Decimal digit characters of `n`, most significant first. -/
def decDigs (n : Nat) : List Char :=
  if h : n < 10 then [Nat.digitChar n]
  else
    have : n / 10 < n := Nat.div_lt_self (by omega) (by omega)
    decDigs (n / 10) ++ [Nat.digitChar (n % 10)]

/-- Numeric value of a decimal digit string. -/
def digitsVal (cs : List Char) : Nat :=
  cs.foldl (fun a c => a * 10 + (c.toNat - Char.toNat '0')) 0

theorem toDigitsCore_eq_decDigs :
    ∀ (fuel n : Nat) (ds : List Char), n < fuel →
      Nat.toDigitsCore 10 fuel n ds = decDigs n ++ ds := by
  intro fuel
  induction fuel with
  | zero => intro n ds h; omega
  | succ f ih =>
      intro n ds hn
      simp only [Nat.toDigitsCore]
      by_cases h10 : n / 10 = 0
      · have hn10 : n < 10 := by omega
        rw [if_pos h10, decDigs, dif_pos hn10, Nat.mod_eq_of_lt hn10]
        rfl
      · have hlt : n / 10 < f := by omega
        rw [if_neg h10, ih (n / 10) _ hlt]
        have hsplit : decDigs n = decDigs (n / 10) ++ [Nat.digitChar (n % 10)] := by
          rw [decDigs, dif_neg (by omega)]
        rw [hsplit, List.append_assoc]
        rfl

theorem digitChar_toNat (d : Nat) (h : d < 10) :
    (Nat.digitChar d).toNat - Char.toNat '0' = d := by
  interval_cases d <;> rfl

theorem digitsVal_decDigs (n : Nat) : digitsVal (decDigs n) = n := by
  induction n using Nat.strong_induction_on with
  | _ n ih =>
      by_cases h : n < 10
      · rw [decDigs, dif_pos h]
        have hv := digitChar_toNat n h
        simp only [digitsVal, List.foldl_cons, List.foldl_nil]
        omega
      · rw [decDigs, dif_neg h]
        have hd : n / 10 < n := Nat.div_lt_self (by omega) (by omega)
        have hmod : n % 10 < 10 := Nat.mod_lt _ (by omega)
        have := ih (n / 10) hd
        simp only [digitsVal, List.foldl_append, List.foldl_cons,
          List.foldl_nil] at this ⊢
        rw [this, digitChar_toNat _ hmod]
        omega

theorem decDigs_injective : Function.Injective decDigs := by
  intro a b h
  have := congrArg digitsVal h
  rwa [digitsVal_decDigs, digitsVal_decDigs] at this

theorem natRepr_eq_decDigs (n : Nat) : Nat.repr n = (decDigs n).asString := by
  show (Nat.toDigits 10 n).asString = (decDigs n).asString
  rw [Nat.toDigits, toDigitsCore_eq_decDigs (n + 1) n [] (Nat.lt_succ_self n),
    List.append_nil]

theorem natRepr_injective : Function.Injective Nat.repr := by
  intro a b h
  rw [natRepr_eq_decDigs, natRepr_eq_decDigs] at h
  have hdata := congrArg String.data h
  simp only [List.asString] at hdata
  exact decDigs_injective hdata

theorem consumerName_injective :
    Function.Injective (fun i : Nat => "consumer-" ++ Nat.repr i) := by
  intro a b h
  have hdata := congrArg String.data h
  simp only [String.data_append] at hdata
  have := List.append_cancel_left hdata
  exact natRepr_injective (by ext1; exact this)

/-! Helper lemmas shared by several claim theorems. -/

theorem ack_head (w : Worker) (ackErr : Option String) (mid : String) :
    (acknowledgeMessage w ackErr mid).head? =
      some (Event.xack .background w.stream w.group mid) := by
  cases ackErr <;> rfl

theorem ack_mem_processMessage (w : Worker) (o : MsgOracle) (msg : XMessage) :
    Event.xack .background w.stream w.group msg.id ∈ processMessage w o msg := by
  by_cases h : (goStringAssert (lookupVal msg.values "id")).2
  · simp only [processMessage, h, if_true, processWellFormed]
    exact List.mem_append_right _ (List.mem_cons_self _ _)
  · simp only [processMessage, h, if_false, Bool.false_eq_true]
    exact List.mem_cons_of_mem _ (List.mem_cons_self _ _)

theorem processMessage_ack_suffix (w : Worker) (o : MsgOracle) (msg : XMessage) :
    ∃ pre, processMessage w o msg =
      pre ++ acknowledgeMessage w o.ackErr msg.id := by
  by_cases h : (goStringAssert (lookupVal msg.values "id")).2
  · exact ⟨processWellFormedPre w o (goStringAssert (lookupVal msg.values "id")).1
        (goStringAssert (lookupVal msg.values "body")).1,
      by simp only [processMessage, h, if_true, processWellFormed]⟩
  · exact ⟨[Event.logLine "Invalid message ID format"],
      by simp only [processMessage, h, if_false, Bool.false_eq_true,
        List.singleton_append]⟩

/-- C1: a claimed record whose field mapping holds no string under the key
`id` is poison: the worker logs the anomaly, acknowledges the delivery
token immediately, performs no status report and no execution, and the
loop iteration goes on (does not exit). -/
theorem malformed_record_is_poison (w : Worker) (o : MsgOracle) (msg : XMessage)
    (h : (goStringAssert (lookupVal msg.values "id")).2 = false) :
    processMessage w o msg =
      Event.logLine "Invalid message ID format" ::
        acknowledgeMessage w o.ackErr msg.id ∧
    (processMessage w o msg).all (fun e => !isReport e && !isSleep e) = true ∧
    (∀ b : Bool, (runStep w ⟨false, b, .ok [[(msg, o)]]⟩).2 = false) := by
  have heq : processMessage w o msg =
      Event.logLine "Invalid message ID format" ::
        acknowledgeMessage w o.ackErr msg.id := by
    simp [processMessage, h]
  refine ⟨heq, ?_, ?_⟩
  · rw [heq]
    cases o.ackErr <;> simp [acknowledgeMessage, isReport, isSleep]
  · intro b
    simp [runStep]

/-- C2: for a record with a string `id`, the acknowledgment follows the
reports and the execution whatever the outcome of the two status reports:
every failing report outcome makes `updateStatus` return an error value
(not a panic), the failure is logged, and the sleep and the final
acknowledgment happen in every case. -/
theorem report_failure_never_blocks_ack (w : Worker) (o : MsgOracle)
    (msg : XMessage)
    (h : (goStringAssert (lookupVal msg.values "id")).2 = true) :
    processMessage w o msg =
      processWellFormedPre w o (goStringAssert (lookupVal msg.values "id")).1
          (goStringAssert (lookupVal msg.values "body")).1 ++
        acknowledgeMessage w o.ackErr msg.id ∧
    Event.sleepMs w.config.processingTimeMs ∈ processMessage w o msg ∧
    Event.xack .background w.stream w.group msg.id ∈ processMessage w o msg ∧
    (∀ id st r,
      ((updateStatus w.config .marshalError id st r).2).isSome = true ∧
      ((updateStatus w.config .requestError id st r).2).isSome = true ∧
      ((updateStatus w.config .transportError id st r).2).isSome = true ∧
      ∀ c : Nat, c ≠ 200 →
        ((updateStatus w.config (.response c) id st r).2).isSome = true) ∧
    (∀ e, (updateStatus w.config o.procReport
        (goStringAssert (lookupVal msg.values "id")).1 "processing" none).2 = some e →
      Event.logLine ("Failed to update status to processing: " ++ e) ∈
        processMessage w o msg) ∧
    (∀ e, (updateStatus w.config o.compReport
        (goStringAssert (lookupVal msg.values "id")).1 "completed"
        (some ("Processed result for message " ++
          (goStringAssert (lookupVal msg.values "body")).1 ++
          " by worker " ++ Nat.repr w.id))).2 = some e →
      Event.logLine ("Failed to update status to completed: " ++ e) ∈
        processMessage w o msg) := by
  have heq : processMessage w o msg =
      processWellFormedPre w o (goStringAssert (lookupVal msg.values "id")).1
          (goStringAssert (lookupVal msg.values "body")).1 ++
        acknowledgeMessage w o.ackErr msg.id := by
    simp only [processMessage, h, if_true, processWellFormed]
  refine ⟨heq, ?_, ?_, ?_, ?_, ?_⟩
  · rw [heq]
    simp [processWellFormedPre]
  · rw [heq]
    simp [acknowledgeMessage]
  · intro id st r
    refine ⟨rfl, rfl, rfl, ?_⟩
    intro c hc
    simp [updateStatus, hc]
  · intro e he
    rw [heq]
    simp [processWellFormedPre, he]
  · intro e he
    rw [heq]
    simp [processWellFormedPre, he]

/-- C3: a successfully claimed well-formed item with id `I` and body `B`,
with both reports answered 200 and the acknowledgment accepted, produces
exactly one `processing` report with null result, then the simulated
delay, then exactly one `completed` report with the result text, then the
acknowledgment, in that order, both reports POSTed to
`apiURL ++ "/update-status"`. -/
theorem single_item_full_trace (w : Worker) (o : MsgOracle) (msg : XMessage)
    (I B : String)
    (hid : lookupVal msg.values "id" = some (GoVal.str I))
    (hbody : lookupVal msg.values "body" = some (GoVal.str B))
    (hp : o.procReport = .response 200)
    (hc : o.compReport = .response 200)
    (ha : o.ackErr = none) :
    processMessage w o msg =
      [Event.logLine ("Processing message: " ++ B),
       Event.httpPost .timeout (w.config.apiURL ++ "/update-status")
         ⟨I, "processing", none⟩,
       Event.sleepMs w.config.processingTimeMs,
       Event.httpPost .timeout (w.config.apiURL ++ "/update-status")
         ⟨I, "completed",
          some ("Processed result for message " ++ B ++ " by worker " ++
            Nat.repr w.id)⟩,
       Event.xack .background w.stream w.group msg.id,
       Event.logLine ("Acknowledged message: " ++ msg.id)] := by
  simp [processMessage, goStringAssert, hid, hbody, processWellFormed,
    processWellFormedPre, updateStatus, acknowledgeMessage, hp, hc, ha]

/-- C4: cancellation is observed only between items: an iteration exits
only from the top-of-loop check or from a cancelled blocking claim (no
item held either way); once a claim returns items the iteration does not
exit, its behaviour is independent of cancellation arriving after the
claim, every claimed message's delivery token is acknowledged within the
iteration, and the loop then continues into the next iteration, whose
top-of-loop check is the next look at the signal. -/
theorem cancellation_only_between_items (w : Worker) (inp : IterInput) :
    ((runStep w inp).2 = true →
      inp.canceledAtTop = true ∨ inp.claim = .canceled) ∧
    (∀ streams, inp.claim = .ok streams → inp.canceledAtTop = false →
      (runStep w inp).2 = false ∧
      (∀ b, runStep w ⟨inp.canceledAtTop, b, inp.claim⟩ = runStep w inp) ∧
      (∀ msgs p, msgs ∈ streams → p ∈ msgs →
        Event.xack .background w.stream w.group p.1.id ∈ (runStep w inp).1) ∧
      (∀ rest, runLoop w (inp :: rest) = (runStep w inp).1 ++ runLoop w rest)) := by
  obtain ⟨top, after, claim⟩ := inp
  constructor
  · intro hexit
    by_cases htop : top = true
    · exact Or.inl htop
    · cases claim with
      | canceled => exact Or.inr rfl
      | redisNil => simp [runStep, htop] at hexit
      | readError e => simp [runStep, htop] at hexit
      | ok s => simp [runStep, htop] at hexit
  · intro streams hclaim htop
    simp only at hclaim htop
    subst hclaim
    subst htop
    refine ⟨by simp [runStep], fun b => rfl, ?_, ?_⟩
    · intro msgs p hmsgs hp
      have h1 : Event.xack .background w.stream w.group p.1.id ∈
          processMessage w p.2 p.1 := ack_mem_processMessage w p.2 p.1
      have h2 : processMessage w p.2 p.1 ∈
          msgs.map (fun p => processMessage w p.2 p.1) :=
        List.mem_map_of_mem _ hp
      have h3 := List.mem_flatten.mpr ⟨_, h2, h1⟩
      have h4 : (msgs.map (fun p => processMessage w p.2 p.1)).flatten ∈
          streams.map (fun msgs =>
            (msgs.map (fun p => processMessage w p.2 p.1)).flatten) :=
        List.mem_map_of_mem _ hmsgs
      have h5 := List.mem_flatten.mpr ⟨_, h4, h3⟩
      exact List.mem_cons_of_mem _ h5
    · intro rest
      simp [runLoop, runStep]

/-- C5: group creation treats the broker's BUSYGROUP reply as success and
startup proceeds to spawn the workers; any other group-creation error is
fatal: startup ends with `log.Fatalf` and no workers are spawned. -/
theorem busygroup_success_otherwise_fatal (cfg : Config) :
    createConsumerGroup (some busygroupMsg) = none ∧
    createConsumerGroup none = none ∧
    mainStartup cfg none (some busygroupMsg) = .running (spawnWorkers cfg) ∧
    mainStartup cfg none none = .running (spawnWorkers cfg) ∧
    (∀ e, e ≠ busygroupMsg →
      createConsumerGroup (some e) = some e ∧
      mainStartup cfg none (some e) =
        .fatal ("Failed to create consumer group: " ++ e) ∧
      ∀ ws, mainStartup cfg none (some e) ≠ .running ws) := by
  refine ⟨rfl, rfl, by simp [mainStartup, createConsumerGroup], rfl, ?_⟩
  intro e he
  refine ⟨by simp [createConsumerGroup, he],
    by simp [mainStartup, createConsumerGroup, he], ?_⟩
  intro ws
  simp [mainStartup, createConsumerGroup, he]

/-- C6: the claim call a worker issues requests exactly one undelivered
record for its own consumer identity within its group, with a strictly
positive (hence bounded, not indefinite) block timeout, and every
non-exiting iteration starts with exactly this claim call, after the
top-of-loop cancellation check. -/
theorem claim_count_one_bounded_block (w : Worker) :
    (claimArgs w).count = 1 ∧
    (claimArgs w).blockMs = blockTimeoutMs ∧
    0 < (claimArgs w).blockMs ∧
    (claimArgs w).group = w.group ∧
    (claimArgs w).consumer = w.consumer ∧
    (claimArgs w).streamKeys = [w.stream, ">"] ∧
    ∀ inp : IterInput, inp.canceledAtTop = false →
      (runStep w inp).1.head? = some (readEvent w) := by
  refine ⟨rfl, rfl, by norm_num [claimArgs, blockTimeoutMs], rfl, rfl, rfl, ?_⟩
  intro inp htop
  obtain ⟨top, after, claim⟩ := inp
  simp only at htop
  subst htop
  cases claim <;> rfl

/-- C7: the pool spawns exactly `workerCount` workers (for a non-negative
count), the worker at index `i` has consumer identity `consumer-i` and the
shared group and stream names, and all consumer identities are pairwise
distinct. -/
theorem pool_spawns_workerCount_distinct (cfg : Config)
    (h : 0 ≤ cfg.workerCount) :
    ((spawnWorkers cfg).length : Int) = cfg.workerCount ∧
    (∀ i, ∀ hi : i < (spawnWorkers cfg).length,
      ((spawnWorkers cfg).get ⟨i, hi⟩).consumer = "consumer-" ++ Nat.repr i ∧
      ((spawnWorkers cfg).get ⟨i, hi⟩).id = i ∧
      ((spawnWorkers cfg).get ⟨i, hi⟩).group = cfg.groupName ∧
      ((spawnWorkers cfg).get ⟨i, hi⟩).stream = cfg.streamName) ∧
    ((spawnWorkers cfg).map Worker.consumer).Nodup := by
  refine ⟨?_, ?_, ?_⟩
  · simp [spawnWorkers, Int.toNat_of_nonneg h]
  · intro i hi
    have hget : (spawnWorkers cfg).get ⟨i, hi⟩ =
        { id := i, consumer := "consumer-" ++ Nat.repr i,
          group := cfg.groupName, stream := cfg.streamName, config := cfg } := by
      simp [spawnWorkers, List.get_eq_getElem]
    rw [hget]
    exact ⟨rfl, rfl, rfl, rfl⟩
  · have hmap : (spawnWorkers cfg).map Worker.consumer =
        (List.range cfg.workerCount.toNat).map
          (fun i => "consumer-" ++ Nat.repr i) := by
      simp only [spawnWorkers, List.map_map]
      rfl
    rw [hmap]
    exact (List.nodup_range _).map consumerName_injective

/-- C8: with the corresponding environment variables unset, every
configuration value the core consumes gets its default: worker count 5,
processing time 2000 ms, stream `mystream`, group `mygroup`, broker
address `localhost:6379`, API base `http://localhost:3000`; the block-read
timeout used by every claim call is the fixed 5000 ms and the shutdown
grace period the fixed 10000 ms. -/
theorem config_defaults (env : List (String × String))
    (h1 : getenv env "WORKER_COUNT" = "")
    (h2 : getenv env "PROCESSING_TIME" = "")
    (h3 : getenv env "STREAM_NAME" = "")
    (h4 : getenv env "GROUP_NAME" = "")
    (h5 : getenv env "REDIS_HOST" = "")
    (h6 : getenv env "REDIS_PORT" = "")
    (h7 : getenv env "API_URL" = "") :
    loadConfig env = .ok
      { redisHost := "localhost", redisPort := "6379",
        apiURL := "http://localhost:3000", workerCount := 5,
        streamName := "mystream", groupName := "mygroup",
        processingTimeMs := 2000 } ∧
    redisAddr
      { redisHost := "localhost", redisPort := "6379",
        apiURL := "http://localhost:3000", workerCount := 5,
        streamName := "mystream", groupName := "mygroup",
        processingTimeMs := 2000 } = "localhost:6379" ∧
    blockTimeoutMs = 5000 ∧
    (∀ w : Worker, (claimArgs w).blockMs = blockTimeoutMs) ∧
    shutdownGraceMs = 10000 := by
  refine ⟨?_, rfl, rfl, fun w => rfl, rfl⟩
  simp [loadConfig, h1, h2, h3, h4, h5, h6, h7]

theorem goStringAssert_false (v : Option GoVal)
    (h : (goStringAssert v).2 = false) : goStringAssert v = ("", false) := by
  cases v with
  | none => rfl
  | some gv =>
      cases gv with
      | str s => simp [goStringAssert] at h
      | other => rfl

theorem updateStatus_no_xack (cfg : Config) (o : HttpOutcome) (id st : String)
    (r : Option String) (c : CtxKind) (s g m : String) :
    Event.xack c s g m ∉ (updateStatus cfg o id st r).1 := by
  cases o <;> simp [updateStatus]

theorem pre_no_xack (w : Worker) (o : MsgOracle) (mid body : String)
    (c : CtxKind) (s g m : String) :
    Event.xack c s g m ∉ processWellFormedPre w o mid body := by
  intro hm
  have hx1 := updateStatus_no_xack w.config o.procReport mid "processing"
    none c s g m
  have hx2 := updateStatus_no_xack w.config o.compReport mid "completed"
    (some ("Processed result for message " ++ body ++ " by worker " ++
      Nat.repr w.id)) c s g m
  simp only [processWellFormedPre] at hm
  generalize hu1 : updateStatus w.config o.procReport mid "processing" none
      = u1 at hm hx1
  generalize hu2 : updateStatus w.config o.compReport mid "completed"
      (some ("Processed result for message " ++ body ++ " by worker " ++
        Nat.repr w.id)) = u2 at hm hx2
  obtain ⟨l1, r1⟩ := u1
  obtain ⟨l2, r2⟩ := u2
  cases r1 <;> cases r2 <;> simp at hm hx1 hx2 <;> tauto

theorem ack_mem_ctx (w : Worker) (a : Option String) (mid : String)
    (c : CtxKind) (s g m : String)
    (hm : Event.xack c s g m ∈ acknowledgeMessage w a mid) :
    c = .background := by
  cases a <;> simp [acknowledgeMessage] at hm <;> exact hm.1

/-- C9: only the `id` field is required: a record with a string `id` but a
missing or non-string `body` is not poison — it goes through the normal
pipeline with the empty string as its body, including the simulated
execution and the acknowledgment. -/
theorem missing_body_defaults_to_empty (w : Worker) (o : MsgOracle)
    (msg : XMessage) (I : String)
    (hid : lookupVal msg.values "id" = some (GoVal.str I))
    (hbody : (goStringAssert (lookupVal msg.values "body")).2 = false) :
    (goStringAssert (lookupVal msg.values "body")).1 = "" ∧
    processMessage w o msg = processWellFormed w o I "" msg.id ∧
    (processMessage w o msg).head? =
      some (Event.logLine "Processing message: ") ∧
    processMessage w o msg ≠
      Event.logLine "Invalid message ID format" ::
        acknowledgeMessage w o.ackErr msg.id ∧
    Event.sleepMs w.config.processingTimeMs ∈ processMessage w o msg ∧
    Event.xack .background w.stream w.group msg.id ∈ processMessage w o msg := by
  have hidpair : goStringAssert (lookupVal msg.values "id") = (I, true) := by
    rw [hid]
    rfl
  have hpair : goStringAssert (lookupVal msg.values "body") = ("", false) :=
    goStringAssert_false _ hbody
  have heq : processMessage w o msg = processWellFormed w o I "" msg.id := by
    simp [processMessage, hidpair, hpair]
  have hhead : (processMessage w o msg).head? =
      some (Event.logLine "Processing message: ") := by
    rw [heq]
    simp [processWellFormed, processWellFormedPre]
  refine ⟨by rw [hpair], heq, hhead, ?_, ?_, ?_⟩
  · intro hcontra
    rw [hcontra] at hhead
    simp only [List.head?_cons, Option.some.injEq] at hhead
    exact absurd hhead (by decide)
  · rw [heq]
    simp [processWellFormed, processWellFormedPre]
  · rw [heq]
    simp [processWellFormed, acknowledgeMessage]

/-- C10: acknowledgment always runs under a fresh background context,
independent of the pool's cancellable context: the ack sub-trace opens
with an `XAck` under `CtxKind.background`, every `processMessage` trace
(well-formed or poison, whatever the oracles) ends with that sub-trace,
and every `XAck` event in a `processMessage` trace carries the background
context — never the pool context — so a shutdown signal cannot abort or
skip the acknowledgment of the in-flight item. -/
theorem ack_under_fresh_background_ctx (w : Worker) (o : MsgOracle)
    (msg : XMessage) (ackErr : Option String) (mid : String) :
    (acknowledgeMessage w ackErr mid).head? =
      some (Event.xack .background w.stream w.group mid) ∧
    (∃ pre, processMessage w o msg =
      pre ++ acknowledgeMessage w o.ackErr msg.id) ∧
    Event.xack .background w.stream w.group msg.id ∈ processMessage w o msg ∧
    (∀ c s g m, Event.xack c s g m ∈ processMessage w o msg →
      c = .background) := by
  refine ⟨ack_head w ackErr mid, processMessage_ack_suffix w o msg,
    ack_mem_processMessage w o msg, ?_⟩
  intro c s g m hmem
  by_cases h : (goStringAssert (lookupVal msg.values "id")).2
  · simp only [processMessage, h, if_true, processWellFormed] at hmem
    rcases List.mem_append.mp hmem with hm | hm
    · exact absurd hm (pre_no_xack w o _ _ c s g m)
    · exact ack_mem_ctx w o.ackErr msg.id c s g m hm
  · simp only [processMessage, h, if_false, Bool.false_eq_true] at hmem
    rcases List.mem_cons.mp hmem with hm | hm
    · exact Event.noConfusion hm
    · exact ack_mem_ctx w o.ackErr msg.id c s g m hm

/-! Witnesses: each theorem with a hypothesis, evaluated at the demo
inputs. -/

/-- Witness for `malformed_record_is_poison` at a record with no `id`. -/
theorem malformed_record_is_poison_witness :
    processMessage demoWorker demoOracle demoBadMsg =
      Event.logLine "Invalid message ID format" ::
        acknowledgeMessage demoWorker demoOracle.ackErr demoBadMsg.id ∧
    (runStep demoWorker ⟨false, true, .ok [[(demoBadMsg, demoOracle)]]⟩).2 =
      false :=
  ⟨(malformed_record_is_poison demoWorker demoOracle demoBadMsg (by decide)).1,
   (malformed_record_is_poison demoWorker demoOracle demoBadMsg
      (by decide)).2.2 true⟩

/-- Witness for `report_failure_never_blocks_ack` with a transport error on
the first report and a 500 answer on the second. -/
theorem report_failure_never_blocks_ack_witness :
    processMessage demoWorker demoFailOracle demoMsg =
      processWellFormedPre demoWorker demoFailOracle
          (goStringAssert (lookupVal demoMsg.values "id")).1
          (goStringAssert (lookupVal demoMsg.values "body")).1 ++
        acknowledgeMessage demoWorker demoFailOracle.ackErr demoMsg.id ∧
    Event.sleepMs demoWorker.config.processingTimeMs ∈
      processMessage demoWorker demoFailOracle demoMsg ∧
    Event.xack .background demoWorker.stream demoWorker.group demoMsg.id ∈
      processMessage demoWorker demoFailOracle demoMsg ∧
    Event.logLine ("Failed to update status to processing: " ++
        "error updating status") ∈
      processMessage demoWorker demoFailOracle demoMsg ∧
    Event.logLine ("Failed to update status to completed: " ++
        "failed to update status, status code: 500") ∈
      processMessage demoWorker demoFailOracle demoMsg := by
  have h := report_failure_never_blocks_ack demoWorker demoFailOracle demoMsg
    (by decide)
  exact ⟨h.1, h.2.1, h.2.2.1,
    h.2.2.2.2.1 "error updating status" (by decide),
    h.2.2.2.2.2 "failed to update status, status code: 500" (by decide)⟩

/-- Witness for `single_item_full_trace` on id 42, body hello, worker 0. -/
theorem single_item_full_trace_witness :
    processMessage demoWorker demoOracle demoMsg =
      [Event.logLine ("Processing message: " ++ "hello"),
       Event.httpPost .timeout (demoWorker.config.apiURL ++ "/update-status")
         ⟨"42", "processing", none⟩,
       Event.sleepMs demoWorker.config.processingTimeMs,
       Event.httpPost .timeout (demoWorker.config.apiURL ++ "/update-status")
         ⟨"42", "completed",
          some ("Processed result for message " ++ "hello" ++ " by worker " ++
            Nat.repr demoWorker.id)⟩,
       Event.xack .background demoWorker.stream demoWorker.group demoMsg.id,
       Event.logLine ("Acknowledged message: " ++ demoMsg.id)] :=
  single_item_full_trace demoWorker demoOracle demoMsg "42" "hello"
    (by decide) (by decide) rfl rfl rfl

/-- Witness for `cancellation_only_between_items` on an iteration claiming
one well-formed item. -/
theorem cancellation_only_between_items_witness :
    (runStep demoWorker ⟨false, true, .ok [[(demoMsg, demoOracle)]]⟩).2 =
      false ∧
    Event.xack .background demoWorker.stream demoWorker.group demoMsg.id ∈
      (runStep demoWorker ⟨false, true, .ok [[(demoMsg, demoOracle)]]⟩).1 := by
  have h := (cancellation_only_between_items demoWorker
      ⟨false, true, .ok [[(demoMsg, demoOracle)]]⟩).2
      [[(demoMsg, demoOracle)]] rfl rfl
  exact ⟨h.1, h.2.2.1 [(demoMsg, demoOracle)] (demoMsg, demoOracle)
    (by decide) (by decide)⟩

/-- Witness for `busygroup_success_otherwise_fatal`: BUSYGROUP lets the
demo pool start, another broker error is fatal. -/
theorem busygroup_success_otherwise_fatal_witness :
    mainStartup demoConfig none (some busygroupMsg) =
      .running (spawnWorkers demoConfig) ∧
    mainStartup demoConfig none (some "ERR no such key") =
      .fatal ("Failed to create consumer group: " ++ "ERR no such key") := by
  have h := busygroup_success_otherwise_fatal demoConfig
  exact ⟨h.2.2.1, (h.2.2.2.2 "ERR no such key" (by decide)).2.1⟩

/-- Witness for `claim_count_one_bounded_block` on a quiet iteration. -/
theorem claim_count_one_bounded_block_witness :
    (claimArgs demoWorker).count = 1 ∧
    0 < (claimArgs demoWorker).blockMs ∧
    (runStep demoWorker ⟨false, false, .redisNil⟩).1.head? =
      some (readEvent demoWorker) := by
  have h := claim_count_one_bounded_block demoWorker
  exact ⟨h.1, h.2.2.1, h.2.2.2.2.2.2 ⟨false, false, .redisNil⟩ rfl⟩

/-- Witness for `pool_spawns_workerCount_distinct` on the default config
with five workers. -/
theorem pool_spawns_workerCount_distinct_witness :
    ((spawnWorkers demoConfig).length : Int) = demoConfig.workerCount ∧
    ((spawnWorkers demoConfig).map Worker.consumer).Nodup := by
  have h := pool_spawns_workerCount_distinct demoConfig (by decide)
  exact ⟨h.1, h.2.2⟩

/-- Witness for `config_defaults` on the empty environment. -/
theorem config_defaults_witness :
    loadConfig [] = .ok
      { redisHost := "localhost", redisPort := "6379",
        apiURL := "http://localhost:3000", workerCount := 5,
        streamName := "mystream", groupName := "mygroup",
        processingTimeMs := 2000 } ∧
    blockTimeoutMs = 5000 ∧ shutdownGraceMs = 10000 := by
  have h := config_defaults [] rfl rfl rfl rfl rfl rfl rfl
  exact ⟨h.1, h.2.2.1, h.2.2.2.2⟩

/-- Witness for `missing_body_defaults_to_empty` on a record with id 42 and
no body field. -/
theorem missing_body_defaults_to_empty_witness :
    (goStringAssert (lookupVal demoNoBodyMsg.values "body")).1 = "" ∧
    processMessage demoWorker demoOracle demoNoBodyMsg =
      processWellFormed demoWorker demoOracle "42" "" demoNoBodyMsg.id ∧
    Event.xack .background demoWorker.stream demoWorker.group
        demoNoBodyMsg.id ∈
      processMessage demoWorker demoOracle demoNoBodyMsg := by
  have h := missing_body_defaults_to_empty demoWorker demoOracle demoNoBodyMsg
    "42" (by decide) (by decide)
  exact ⟨h.1, h.2.1, h.2.2.2.2.2⟩

/-- Witness for `ack_under_fresh_background_ctx` at the demo message. -/
theorem ack_under_fresh_background_ctx_witness :
    (acknowledgeMessage demoWorker none "1741013205952-0").head? =
      some (Event.xack .background demoWorker.stream demoWorker.group
        "1741013205952-0") ∧
    CtxKind.background = CtxKind.background := by
  have h := ack_under_fresh_background_ctx demoWorker demoOracle demoMsg none
    "1741013205952-0"
  exact ⟨h.1, h.2.2.2 CtxKind.background demoWorker.stream demoWorker.group
    demoMsg.id h.2.2.1⟩

end StreamWorker
